import Mathlib

/-!
Shallow embedding of the interactive terminal session of the `kite`
dashboard (the `Terminal` React component): the xterm emulator adapter,
the WebSocket transport channel, the session lifecycle (React effect
body / cleanup), the traffic meter and the keepalive monitor.

Conventions of the embedding:
* Browser/JS machinery that is external to the repository (`JSON.parse`,
  `new Blob(...).size`, `WebSocket` ready-state bookkeeping, timer ids)
  is modelled explicitly: the result of `JSON.parse` on an inbound
  payload is an `Option InMsg` argument (`none` = the parse threw), the
  blob size of the raw inbound payload is a `Nat` argument, a live timer
  is a `Bool` flag, and `WebSocket.close()` with no argument performs a
  normal closure (code 1000).
* Every event handler of the component becomes a total Lean function on
  an explicit `SessionState`; terminal output is the append-only list of
  `write`/`writeln` calls issued to the xterm instance.
-/

namespace KiteTerminal

/-- Ready state of the browser WebSocket (`CONNECTING/OPEN/CLOSING/CLOSED`);
`OPEN` is spelled `opened` because `open` is a Lean keyword. -/
inductive ReadyState where
  | connecting
  | opened
  | closing
  | closed
deriving DecidableEq

/-- Outbound frames the component sends over the channel:
`{type:'stdin',data}`, `{type:'resize',cols,rows}`, `{type:'ping'}`. -/
inductive OutFrame where
  | stdin (data : String)
  | resize (cols rows : Nat)
  | ping
deriving DecidableEq

/-- Inbound messages after a successful `JSON.parse`, discriminated by the
`type` field exactly as in the handler's `switch`; `unknown` stands for a
successfully parsed record whose `type` matches no `case`. -/
inductive InMsg where
  | stdout (data : String)
  | stderr (data : String)
  | info (data : String)
  | connected (data : String)
  | error (data : String)
  | pong
  | unknown
deriving DecidableEq

/-- One call issued to the xterm instance: `terminal.write data` or
`terminal.writeln data` (the latter appends a line break). -/
inductive TermEvent where
  | write (data : String)
  | writeln (data : String)
deriving DecidableEq

/-- The mutable counters of `networkStatsRef.current`. -/
structure NetworkStats where
  lastReset : Nat
  bytesReceived : Nat
  bytesSent : Nat
  lastUpdate : Nat
deriving DecidableEq

/-- State of one session generation of the `Terminal` component: terminal
output so far, the `isConnected` indicator, the displayed speed reading,
the byte counters, the two interval timers, the WebSocket's ready state,
the frames sent on it, its close code once closed, the console log, and
the emulator-side data the handlers read (`fitAddonRef` presence and the
terminal's current geometry). Speeds are exact rationals standing for the
JS floating-point rates. -/
structure SessionState where
  termEvents : List TermEvent
  isConnected : Bool
  networkSpeed : ℚ × ℚ
  stats : NetworkStats
  speedTimer : Bool
  pingTimer : Bool
  readyState : ReadyState
  sent : List OutFrame
  closeCode : Option Nat
  log : List String
  fitAddon : Bool
  cols : Nat
  rows : Nat
  stype : String

/-- `updateNetworkStats(dataSize, isOutgoing)`: add the byte count to the
outgoing or incoming counter. -/
def updateNetworkStats (dataSize : Nat) (isOutgoing : Bool)
    (s : SessionState) : SessionState :=
  if isOutgoing then
    { s with stats := { s.stats with bytesSent := s.stats.bytesSent + dataSize } }
  else
    { s with stats := { s.stats with bytesReceived := s.stats.bytesReceived + dataSize } }

/-- Serialization of an outbound frame (`JSON.stringify` of the record);
JSON string escaping of the payload is not modelled — no claim depends on
the serialized bytes. -/
def stringifyFrame : OutFrame → String
  | .stdin d => "\x7b\"type\":\"stdin\",\"data\":\"" ++ d ++ "\"\x7d"
  | .resize c r =>
      "\x7b\"type\":\"resize\",\"cols\":" ++ toString c ++ ",\"rows\":" ++ toString r ++ "\x7d"
  | .ping => "\x7b\"type\":\"ping\"\x7d"

/-- Keepalive period of the `setInterval` in `websocket.onopen` (30000 ms). -/
def pingIntervalMs : Nat := 30000

/-- Sampling period of the speed `setInterval` in `websocket.onopen` (500 ms). -/
def speedIntervalMs : Nat := 500

/-- `websocket.onopen`: mark connected, reset the traffic counters and the
displayed speed, (re)arm both interval timers, and print the green
connection banner followed by a blank line. -/
def onopen (now : Nat) (s : SessionState) : SessionState :=
  { s with
    isConnected := true
    stats := { lastReset := now, bytesReceived := 0, bytesSent := 0, lastUpdate := now }
    networkSpeed := (0, 0)
    speedTimer := true
    pingTimer := true
    termEvents := s.termEvents ++
      [TermEvent.writeln ("\x1b[32mConnected to " ++ s.stype ++ " terminal!\x1b[0m"),
       TermEvent.writeln ""] }

/-- Body of the speed-sampling interval: recompute the displayed rates from
the counters, and reset the window once at least 3 s have elapsed. -/
def speedTick (now : Nat) (s : SessionState) : SessionState :=
  let timeDiff : ℚ := ((now : ℚ) - (s.stats.lastReset : ℚ)) / 1000
  if 0 < timeDiff then
    let s' := { s with networkSpeed :=
      ((s.stats.bytesSent : ℚ) / timeDiff, (s.stats.bytesReceived : ℚ) / timeDiff) }
    if 3 ≤ timeDiff then
      { s' with stats := { s'.stats with lastReset := now, bytesSent := 0, bytesReceived := 0 } }
    else s'
  else s

/-- Body of the keepalive interval: send a `ping` frame, but only when the
socket's ready state is `OPEN`. -/
def pingTick (s : SessionState) : SessionState :=
  if s.readyState == ReadyState.opened then
    updateNetworkStats (stringifyFrame OutFrame.ping).utf8ByteSize true
      { s with sent := s.sent ++ [OutFrame.ping] }
  else s

/-- `websocket.onmessage`: `parsed` is the result of `JSON.parse` on the
raw payload (`none` when the parse threw — the `catch` logs and returns),
`size` is the blob size of the raw payload. On success the traffic meter
is fed, then the `switch` on `message.type` runs. -/
def onmessage (parsed : Option InMsg) (size : Nat) (s : SessionState) : SessionState :=
  match parsed with
  | none => { s with log := s.log ++ ["Failed to parse WebSocket message:"] }
  | some msg =>
    let s' := updateNetworkStats size false s
    match msg with
    | .stdout d => { s' with termEvents := s'.termEvents ++ [TermEvent.write d] }
    | .stderr d => { s' with termEvents := s'.termEvents ++ [TermEvent.write d] }
    | .info d =>
        { s' with termEvents := s'.termEvents ++
            [TermEvent.writeln ("\x1b[34m" ++ d ++ "\x1b[0m")] }
    | .connected d =>
        { s' with termEvents := s'.termEvents ++
            [TermEvent.writeln ("\x1b[32m" ++ d ++ "\x1b[0m")] }
    | .error d =>
        { s' with
          termEvents := s'.termEvents ++
            [TermEvent.writeln ("\x1b[31mError: " ++ d ++ "\x1b[0m")]
          isConnected := false }
    | .pong => s'
    | .unknown => s'

/-- `websocket.onerror`: log, print a red error line, mark disconnected. -/
def onerror (s : SessionState) : SessionState :=
  { s with
    log := s.log ++ ["WebSocket error:"]
    termEvents := s.termEvents ++
      [TermEvent.writeln "\x1b[31mWebSocket connection error\x1b[0m"]
    isConnected := false }

/-- `websocket.onclose(event)`: the socket is closed (with `event.code`)
when this fires; mark disconnected, zero the displayed rates, clear both
interval timers, and print one closing line — red when `event.code !== 1000`,
green otherwise. -/
def onclose (code : Nat) (s : SessionState) : SessionState :=
  { s with
    readyState := ReadyState.closed
    closeCode := some code
    isConnected := false
    networkSpeed := (0, 0)
    speedTimer := false
    pingTimer := false
    termEvents := s.termEvents ++
      [if code ≠ 1000 then
        TermEvent.writeln "\x1b[31mConnection closed unexpectedly\x1b[0m"
       else TermEvent.writeln "\x1b[32mConnection closed\x1b[0m"] }

/-- `terminal.onData`: forward a keystroke chunk as a `stdin` frame, only
when the socket's ready state is `OPEN`; otherwise do nothing. -/
def onData (d : String) (s : SessionState) : SessionState :=
  if s.readyState == ReadyState.opened then
    updateNetworkStats (stringifyFrame (OutFrame.stdin d)).utf8ByteSize true
      { s with sent := s.sent ++ [OutFrame.stdin d] }
  else s

/-- `handleTerminalResize`: when the fit addon is attached and the socket
is `OPEN`, send a `resize` frame carrying the terminal's current
`{cols, rows}`; otherwise do nothing. Invoked from a one-shot settle
timeout and from the `ResizeObserver` on the terminal element. -/
def handleTerminalResize (s : SessionState) : SessionState :=
  if s.fitAddon && (s.readyState == ReadyState.opened) then
    updateNetworkStats (stringifyFrame (OutFrame.resize s.cols s.rows)).utf8ByteSize true
      { s with sent := s.sent ++ [OutFrame.resize s.cols s.rows] }
  else s

/-! Session lifecycle: the unified effect of the component. React runs the
previous effect's cleanup before re-running the body (on a change of any
dependency: selected pod, selected container, namespace, terminal type),
and on unmount runs only the cleanup. Instances ever created are kept in
the model so that "at most one live instance" is a statement about all of
them, not just the current refs. -/

/-- One xterm emulator instance; `dispose` is idempotent. -/
structure EmuInst where
  disposed : Bool
deriving DecidableEq

/-- `terminal.dispose()`. -/
def EmuInst.dispose (_ : EmuInst) : EmuInst := { disposed := true }

/-- One WebSocket instance: its ready state and, once closed, its close
code. -/
structure SockInst where
  state : ReadyState
  closeCode : Option Nat
deriving DecidableEq

/-- `websocket.close()` with no argument: a no-op on an already-closed
socket, otherwise a normal closure with code 1000 (the closing handshake
is collapsed into the final CLOSED state). -/
def SockInst.close (w : SockInst) : SockInst :=
  if w.state = ReadyState.closed then w
  else { state := ReadyState.closed, closeCode := some 1000 }

/-- Component-level state: every emulator and socket this `Terminal`
component ever created (`prevEmus`/`prevSocks` are the generations already
replaced, `curEmu`/`curSock` what the refs point at), plus the two timer
refs. -/
structure CompState where
  prevEmus : List EmuInst
  curEmu : Option EmuInst
  prevSocks : List SockInst
  curSock : Option SockInst
  speedTimer : Bool
  pingTimer : Bool
deriving DecidableEq

/-- The effect's cleanup (lines `return () => ...`): dispose the terminal,
close the websocket, clear the sampling and keepalive intervals. The refs
keep pointing at the dead instances. -/
def effectCleanup (s : CompState) : CompState :=
  { s with
    curEmu := s.curEmu.map EmuInst.dispose
    curSock := s.curSock.map SockInst.close
    speedTimer := false
    pingTimer := false }

/-- The effect's body: defensively dispose/close whatever the refs still
hold (`if (xtermRef.current) xtermRef.current.dispose()`;
`if (wsRef.current) wsRef.current.close()`), then construct a fresh
emulator and a fresh connecting WebSocket and point the refs at them. -/
def effectBody (s : CompState) : CompState :=
  { prevEmus := s.prevEmus ++ (s.curEmu.map EmuInst.dispose).toList
    curEmu := some { disposed := false }
    prevSocks := s.prevSocks ++ (s.curSock.map SockInst.close).toList
    curSock := some { state := ReadyState.connecting, closeCode := none }
    speedTimer := s.speedTimer
    pingTimer := s.pingTimer }

/-- A rebuild of the session, as React sequences it: the previous
generation's cleanup, then the new effect body. -/
def rebuild (s : CompState) : CompState := effectBody (effectCleanup s)

/-- Number of not-yet-disposed emulator instances of the component. -/
def liveEmus (s : CompState) : Nat :=
  ((s.prevEmus ++ s.curEmu.toList).filter (fun e => !e.disposed)).length

/-- Number of not-yet-closed WebSocket instances of the component. -/
def liveSocks (s : CompState) : Nat :=
  ((s.prevSocks ++ s.curSock.toList).filter
    (fun w => !(w.state == ReadyState.closed))).length

/-- Invariant: every replaced generation is fully dead — its emulator
disposed and its socket closed. -/
def allPrevDead (s : CompState) : Bool :=
  s.prevEmus.all (fun e => e.disposed) &&
  s.prevSocks.all (fun w => w.state == ReadyState.closed)

/-! Entry guards of the effect (lines 181–187): translated clause by
clause from

```
if (type === 'pod') {
  if (!pods || pods.length === 0) if (!selectedPod) return
  if (!selectedContainer) return
}
if (type === 'node' && !nodeName) return
if (!terminalRef.current) return
```

Optional string props are modelled as `String` with `""` for the JS-falsy
values (`undefined` and the empty string), a possibly-undefined pod list
as a `List String` of pod names (`undefined` and `[]` take the same
branch). -/

/-- Whether the effect proceeds past its guards to build a terminal and
open a WebSocket. -/
def attemptsConnection (ttype : String) (pods : List String)
    (selectedPod selectedContainer nodeName : String)
    (terminalRefAttached : Bool) : Bool :=
  if ttype == "pod" && pods.isEmpty && (selectedPod == "") then false
  else if ttype == "pod" && (selectedContainer == "") then false
  else if ttype == "node" && (nodeName == "") then false
  else terminalRefAttached

/-- Pod default of the props-initialisation effect:
`setSelectedPod(podName || pods?.[0]?.metadata?.name || '')`. -/
def initSelectedPod (podName : String) (pods : List String) : String :=
  if podName == "" then pods.headD "" else podName

/-- Container default of the props-initialisation effect:
`setSelectedContainer(containers.length > 0 ? containers[0].name : '')`. -/
def initSelectedContainer (containers : List String) : String :=
  match containers with
  | [] => ""
  | c :: _ => c

/-! Derived views of the terminal output, and batch processing of inbound
traffic, used to state the stream properties. -/

/-- The payload of a plain `terminal.write` call (`writeln` calls — status
and diagnostic lines — carry none). -/
def writeData : TermEvent → Option String
  | .write d => some d
  | .writeln _ => none

/-- The raw byte stream written to the terminal by plain `write` calls, in
order, as the list of written chunks. -/
def writes (s : SessionState) : List String :=
  s.termEvents.filterMap writeData

/-- The payload of a `stdout`/`stderr` frame; `none` for every other
message type. -/
def stdPayload : InMsg → Option String
  | .stdout d => some d
  | .stderr d => some d
  | _ => none

/-- Deliver a sequence of successfully parsed inbound messages (each with
its raw blob size) to the message handler, in arrival order. -/
def processInbound (l : List (InMsg × Nat)) (s : SessionState) : SessionState :=
  l.foldl (fun st p => onmessage (some p.1) p.2 st) s

/-! Concrete states used to instantiate the theorems. -/

/-- A freshly constructed session: empty terminal, socket still
connecting, nothing sent, no timers. -/
def initialSession : SessionState :=
  { termEvents := []
    isConnected := false
    networkSpeed := (0, 0)
    stats := { lastReset := 0, bytesReceived := 0, bytesSent := 0, lastUpdate := 0 }
    speedTimer := false
    pingTimer := false
    readyState := ReadyState.connecting
    sent := []
    closeCode := none
    log := []
    fitAddon := false
    cols := 0
    rows := 0
    stype := "pod" }

/-- A connected session: socket open, fit addon attached, 80×24 geometry,
both timers armed. -/
def openSession : SessionState :=
  { initialSession with
    isConnected := true
    readyState := ReadyState.opened
    speedTimer := true
    pingTimer := true
    fitAddon := true
    cols := 80
    rows := 24 }

/-- A component in its second generation: one fully dead previous
generation, a live emulator and an open socket, timers armed. -/
def demoComp : CompState :=
  { prevEmus := [{ disposed := true }]
    curEmu := some { disposed := false }
    prevSocks := [{ state := ReadyState.closed, closeCode := some 1000 }]
    curSock := some { state := ReadyState.opened, closeCode := none }
    speedTimer := true
    pingTimer := true }

/-- A concrete inbound sequence: a stdout chunk and a stderr chunk with
their raw blob sizes. -/
def demoInbound : List (InMsg × Nat) :=
  [(InMsg.stdout "$ ", 28), (InMsg.stderr "oops", 30)]

/-! Theorems. -/

/-- Closing a socket always leaves it in the closed state. -/
lemma SockInst.close_state (w : SockInst) :
    (SockInst.close w).state = ReadyState.closed := by
  by_cases hwc : w.state = ReadyState.closed <;> simp [SockInst.close, hwc]

/-- C3: an inbound payload that fails to parse is logged and discarded:
the handler returns normally and the whole session state — connection
flag, traffic counters, terminal contents — is unchanged except for the
appended console-log entry. -/
theorem malformed_frame_only_logged (size : Nat) (s : SessionState) :
    onmessage none size s =
      { s with log := s.log ++ ["Failed to parse WebSocket message:"] } ∧
    (onmessage none size s).isConnected = s.isConnected ∧
    (onmessage none size s).stats = s.stats ∧
    (onmessage none size s).termEvents = s.termEvents :=
  ⟨rfl, rfl, rfl, rfl⟩

/-- C4: while the socket's ready state is not OPEN, every sender — the
stdin forwarder, the resize pusher and the keepalive tick — drops its
frame silently: each returns the state unchanged (in particular nothing
is appended to the sent-frame log and nothing is thrown). -/
theorem no_frame_sent_when_not_open (s : SessionState) (d : String)
    (h : s.readyState ≠ ReadyState.opened) :
    onData d s = s ∧ handleTerminalResize s = s ∧ pingTick s = s := by
  have hb : (s.readyState == ReadyState.opened) = false :=
    beq_eq_false_iff_ne.mpr h
  refine ⟨?_, ?_, ?_⟩ <;> simp [onData, handleTerminalResize, pingTick, hb]

/-- Witness for C4 at a concrete not-yet-open session. -/
theorem no_frame_sent_when_not_open_witness :
    initialSession.readyState ≠ ReadyState.opened ∧
    (onData "ls" initialSession = initialSession ∧
     handleTerminalResize initialSession = initialSession ∧
     pingTick initialSession = initialSession) :=
  ⟨by decide, no_frame_sent_when_not_open initialSession "ls" (by decide)⟩

/-- C5 (code bug evidence): the effect's entry guard lets a pod-type
session attempt a connection with an unresolved (empty) pod identifier as
soon as the pod list is non-empty and a container is selected — the
clause `if (!pods || pods.length === 0) if (!selectedPod) return` only
checks the selected pod when the list is empty. The empty-list case and
the first-pod default behave as specified. -/
theorem pod_guard_admits_unresolved_pod :
    attemptsConnection "pod" ["web-1"] "" "app" "" true = true ∧
    attemptsConnection "pod" [] "" "app" "" true = false ∧
    attemptsConnection "pod" ["web-1"] "web-1" "" "" true = false ∧
    initSelectedPod "" ["web-1"] = "web-1" ∧
    initSelectedContainer ["app"] = "app" := by
  refine ⟨by decide, by decide, by decide, by decide, by decide⟩

/-- C6: the close handler writes exactly one status line: red
"Connection closed unexpectedly" when the close code differs from the
normal-closure code 1000, green "Connection closed" when it equals it. -/
theorem close_code_single_status_line (code : Nat) (s : SessionState) :
    (onclose code s).termEvents.length = s.termEvents.length + 1 ∧
    (onclose code s).termEvents =
      s.termEvents ++
        [if code ≠ 1000 then
          TermEvent.writeln "\x1b[31mConnection closed unexpectedly\x1b[0m"
         else TermEvent.writeln "\x1b[32mConnection closed\x1b[0m"] := by
  constructor
  · simp [onclose]
  · rfl

/-- C8: immediately on the close event (hence within any sampling tick)
the displayed rates are `{upload := 0, download := 0}` and the sampling
interval is cancelled, so no stale reading survives a disconnect. -/
theorem rates_reset_and_sampler_cleared_on_close (code : Nat) (s : SessionState) :
    (onclose code s).networkSpeed = (0, 0) ∧
    (onclose code s).speedTimer = false :=
  ⟨rfl, rfl⟩

/-- C9: the keepalive interval is the fixed 30000 ms; its tick sends
exactly one ping frame when the socket is open and nothing at all
otherwise, and the close handler tears the keepalive timer down, so no
ping is ever sent on a non-open channel and no keepalive timer survives a
close. -/
theorem keepalive_only_while_open (s t : SessionState) (code : Nat)
    (hs : s.readyState = ReadyState.opened)
    (ht : t.readyState ≠ ReadyState.opened) :
    pingIntervalMs = 30000 ∧
    (pingTick s).sent = s.sent ++ [OutFrame.ping] ∧
    pingTick t = t ∧
    (onclose code s).pingTimer = false := by
  have hbs : (s.readyState == ReadyState.opened) = true := by simp [hs]
  have hbt : (t.readyState == ReadyState.opened) = false :=
    beq_eq_false_iff_ne.mpr ht
  refine ⟨rfl, ?_, ?_, rfl⟩
  · simp [pingTick, hbs, updateNetworkStats]
  · simp [pingTick, hbt]

/-- Witness for C9 at a concrete open and a concrete non-open session. -/
theorem keepalive_only_while_open_witness :
    (openSession.readyState = ReadyState.opened ∧
     initialSession.readyState ≠ ReadyState.opened) ∧
    (pingIntervalMs = 30000 ∧
     (pingTick openSession).sent = openSession.sent ++ [OutFrame.ping] ∧
     pingTick initialSession = initialSession ∧
     (onclose 1006 openSession).pingTimer = false) :=
  ⟨⟨by decide, by decide⟩,
   keepalive_only_while_open openSession initialSession 1006 (by decide) (by decide)⟩

/-- C10: an inbound `error` frame writes one red `Error: <text>` line and
flips the connection indicator to disconnected, while the channel itself
is untouched: the socket's ready state and close code are unchanged, no
close frame or any frame is sent, and both interval timers keep running. -/
theorem inbound_error_marks_disconnected_keeps_channel
    (d : String) (size : Nat) (s : SessionState) :
    (onmessage (some (InMsg.error d)) size s).termEvents =
      s.termEvents ++ [TermEvent.writeln ("\x1b[31mError: " ++ d ++ "\x1b[0m")] ∧
    (onmessage (some (InMsg.error d)) size s).isConnected = false ∧
    (onmessage (some (InMsg.error d)) size s).readyState = s.readyState ∧
    (onmessage (some (InMsg.error d)) size s).closeCode = s.closeCode ∧
    (onmessage (some (InMsg.error d)) size s).sent = s.sent ∧
    (onmessage (some (InMsg.error d)) size s).speedTimer = s.speedTimer ∧
    (onmessage (some (InMsg.error d)) size s).pingTimer = s.pingTimer := by
  refine ⟨?_, ?_, ?_, ?_, ?_, ?_, ?_⟩ <;> simp [onmessage, updateNetworkStats]

/-- C7 (counterexample): resize sends are neither debounced nor
deduplicated by geometry — two consecutive invocations of the resize
pusher on a connected 80×24 session send two identical `resize 80 24`
frames, so "exactly once per distinct `{cols, rows}` pair" fails. -/
theorem resize_repeats_same_pair :
    (handleTerminalResize (handleTerminalResize openSession)).sent =
      [OutFrame.resize 80 24, OutFrame.resize 80 24] ∧
    ¬ ((handleTerminalResize (handleTerminalResize openSession)).sent.count
        (OutFrame.resize 80 24) ≤ 1) := by
  refine ⟨by decide, by decide⟩

/-- C7 (amended): every invocation of the resize pusher while the fit
addon is attached and the socket is open sends exactly one `resize` frame
carrying the terminal's current geometry — repeated invocations with
unchanged geometry send again — and no invocation sends anything while
the socket is not open. -/
theorem resize_frame_per_invocation (s : SessionState) :
    (handleTerminalResize s).sent =
      (if s.fitAddon && (s.readyState == ReadyState.opened) then
        s.sent ++ [OutFrame.resize s.cols s.rows]
       else s.sent) := by
  cases h : s.fitAddon && (s.readyState == ReadyState.opened) with
  | true => simp [handleTerminalResize, h, updateNetworkStats]
  | false => simp [handleTerminalResize, h]

/-- The write stream after one successfully parsed message: extended by
exactly the payload when the message is `stdout`/`stderr`, unchanged
otherwise. -/
lemma writes_onmessage (m : InMsg) (n : Nat) (s : SessionState) :
    writes (onmessage (some m) n s) = writes s ++ (stdPayload m).toList := by
  cases m <;>
    simp [onmessage, updateNetworkStats, writes, stdPayload, writeData,
      List.filterMap_append]

/-- Batch form of `writes_onmessage` over a sequence of
`stdout`/`stderr` frames. -/
lemma processInbound_writes : ∀ (l : List (InMsg × Nat)) (s : SessionState),
    (∀ p ∈ l, (stdPayload p.1).isSome = true) →
    writes (processInbound l s) =
      writes s ++ l.filterMap (fun p => stdPayload p.1) := by
  intro l
  induction l with
  | nil => intro s _; simp [processInbound]
  | cons p tl ih =>
    intro s h
    obtain ⟨d, hd⟩ :=
      Option.isSome_iff_exists.mp (h p (List.mem_cons_self p tl))
    have hstep : processInbound (p :: tl) s =
        processInbound tl (onmessage (some p.1) p.2 s) := rfl
    rw [hstep,
      ih (onmessage (some p.1) p.2 s) (fun q hq => h q (List.mem_cons_of_mem p hq)),
      writes_onmessage, hd]
    simp [List.filterMap_cons, hd]

/-- A sequence of frames that all carry a `stdout`/`stderr` payload
yields exactly one written chunk per frame. -/
lemma filterMap_stdPayload_length : ∀ (l : List (InMsg × Nat)),
    (∀ p ∈ l, (stdPayload p.1).isSome = true) →
    (l.filterMap (fun p => stdPayload p.1)).length = l.length := by
  intro l
  induction l with
  | nil => intro _; rfl
  | cons p tl ih =>
    intro h
    obtain ⟨d, hd⟩ :=
      Option.isSome_iff_exists.mp (h p (List.mem_cons_self p tl))
    simp [List.filterMap_cons, hd,
      ih (fun q hq => h q (List.mem_cons_of_mem p hq))]

/-- C2: delivering any sequence of inbound `stdout`/`stderr` frames
appends to the terminal's write stream exactly the concatenation of their
payloads in arrival order — one write per frame — and no other inbound
message type ever contributes a plain write. -/
theorem stdout_stderr_stream_concat (l : List (InMsg × Nat)) (s : SessionState)
    (h : ∀ p ∈ l, (stdPayload p.1).isSome = true) :
    writes (processInbound l s) =
      writes s ++ l.filterMap (fun p => stdPayload p.1) ∧
    (l.filterMap (fun p => stdPayload p.1)).length = l.length ∧
    (∀ (m : InMsg) (n : Nat) (t : SessionState), stdPayload m = none →
      writes (onmessage (some m) n t) = writes t) := by
  refine ⟨processInbound_writes l s h, filterMap_stdPayload_length l h, ?_⟩
  intro m n t hm
  rw [writes_onmessage, hm]
  simp

/-- Witness for C2 at a concrete two-frame inbound sequence. -/
theorem stdout_stderr_stream_concat_witness :
    (∀ p ∈ demoInbound, (stdPayload p.1).isSome = true) ∧
    (writes (processInbound demoInbound initialSession) =
        writes initialSession ++ demoInbound.filterMap (fun p => stdPayload p.1) ∧
      (demoInbound.filterMap (fun p => stdPayload p.1)).length = demoInbound.length ∧
      (∀ (m : InMsg) (n : Nat) (t : SessionState), stdPayload m = none →
        writes (onmessage (some m) n t) = writes t)) :=
  ⟨by decide, stdout_stderr_stream_concat demoInbound initialSession (by decide)⟩

/-- C1: assuming every replaced generation is already dead, a rebuild of
the session first runs the cleanup — after which no emulator and no
socket of the component is live, both interval timers are cleared, and a
socket that was still open got closed with the normal-closure code
1000 — and only then constructs the new generation, after which exactly
one emulator and one socket are live and every replaced generation is
dead again. -/
theorem terminal_rebuild_single_live (s : CompState) (h : allPrevDead s = true) :
    liveEmus (effectCleanup s) = 0 ∧
    liveSocks (effectCleanup s) = 0 ∧
    (effectCleanup s).speedTimer = false ∧
    (effectCleanup s).pingTimer = false ∧
    (∀ w, s.curSock = some w → w.state ≠ ReadyState.closed →
      (effectCleanup s).curSock =
        some { state := ReadyState.closed, closeCode := some 1000 }) ∧
    liveEmus (rebuild s) = 1 ∧
    liveSocks (rebuild s) = 1 ∧
    allPrevDead (rebuild s) = true := by
  rw [allPrevDead, Bool.and_eq_true] at h
  obtain ⟨hae, haw⟩ := h
  have he : ∀ e ∈ s.prevEmus, e.disposed = true := by
    intro e hme
    exact List.all_eq_true.mp hae e hme
  have hw : ∀ w ∈ s.prevSocks, w.state = ReadyState.closed := by
    intro w hmw
    have := List.all_eq_true.mp haw w hmw
    simpa using this
  have hpe : s.prevEmus.filter (fun e => !e.disposed) = [] := by
    rw [List.filter_eq_nil_iff]
    intro e hme
    simp [he e hme]
  have hps : s.prevSocks.filter (fun w => !(w.state == ReadyState.closed)) = [] := by
    rw [List.filter_eq_nil_iff]
    intro w hmw
    simp [hw w hmw]
  refine ⟨?_, ?_, rfl, rfl, ?_, ?_, ?_, ?_⟩
  · simp only [liveEmus, effectCleanup, List.filter_append, List.length_append,
      hpe, List.length_nil]
    cases s.curEmu <;> simp [EmuInst.dispose]
  · simp only [liveSocks, effectCleanup, List.filter_append, List.length_append,
      hps, List.length_nil]
    cases s.curSock <;> simp [SockInst.close_state]
  · intro w hcur hne
    simp [effectCleanup, hcur, SockInst.close, hne]
  · simp only [rebuild, liveEmus, effectBody, effectCleanup, List.filter_append,
      List.length_append, hpe, List.length_nil]
    cases s.curEmu <;> simp [EmuInst.dispose]
  · simp only [rebuild, liveSocks, effectBody, effectCleanup, List.filter_append,
      List.length_append, hps, List.length_nil]
    cases s.curSock <;> simp [SockInst.close_state]
  · simp only [rebuild, allPrevDead, effectBody, effectCleanup, List.all_append,
      Bool.and_eq_true, List.all_eq_true]
    refine ⟨⟨he, ?_⟩, ?_, ?_⟩
    · cases s.curEmu <;> simp [EmuInst.dispose]
    · intro w hmw
      simpa using hw w hmw
    · cases s.curSock <;> simp [SockInst.close_state]

/-- Witness for C1 at a concrete second-generation component state. -/
theorem terminal_rebuild_single_live_witness :
    allPrevDead demoComp = true ∧
    (liveEmus (effectCleanup demoComp) = 0 ∧
     liveSocks (effectCleanup demoComp) = 0 ∧
     (effectCleanup demoComp).speedTimer = false ∧
     (effectCleanup demoComp).pingTimer = false ∧
     (∀ w, demoComp.curSock = some w → w.state ≠ ReadyState.closed →
       (effectCleanup demoComp).curSock =
         some { state := ReadyState.closed, closeCode := some 1000 }) ∧
     liveEmus (rebuild demoComp) = 1 ∧
     liveSocks (rebuild demoComp) = 1 ∧
     allPrevDead (rebuild demoComp) = true) :=
  ⟨by decide, terminal_rebuild_single_live demoComp (by decide)⟩

end KiteTerminal
